import Mathlib

/-!
# Verification of EdPy `hl_parser.py`

Shallow embedding of the lexical and symbol-resolution front end of the
EdPy token assembler (`src/lib/hl_parser.py`), together with proofs of the
testable properties stated for it.

Modelling conventions:
* Python dicts are modelled as association lists accessed only by key
  (`List.lookup` / `setKey`); insertion order is irrelevant to every
  operation of the module, which accesses the tables by key only.
* Python exceptions are modelled with the `Err` type: `AsmError_NO_RET`
  raises after reporting a numeric error code and message (`Err.asm`);
  unhandled built-in exceptions (`ValueError` from `int`, `KeyError` from
  dict indexing, `IndexError` from string indexing, `AttributeError`,
  `TypeError` from `ord`) get their own constructors.
* The mutable module-level `devices`/`locations` globals become a `SymTab`
  value threaded explicitly; `add_device` returns the table at the point
  of exit, which models Python's in-place mutation faithfully because in
  the source every mutation happens after the last error exit.
* Python `int(s, b)` is modelled including whitespace stripping, an
  optional sign and base prefixes; digit-separating underscores are not
  modelled (no numeral in scope uses them).
-/

/-- Outcome of a raised Python exception in `hl_parser.py`:
`asm code msg` is `AsmError_NO_RET(code, msg)`, the rest are unhandled
built-in exceptions. -/
inductive Err where
  | asm : Nat → String → Err
  | valueError : Err
  | keyError : Err
  | indexError : Err
  | attributeError : Err
  | typeError : Err
deriving DecidableEq

/-- A Python value stored in a `word`: either an `int` or a `str`. -/
inductive WVal where
  | i : Int → WVal
  | s : String → WVal
deriving DecidableEq

/-- The `word` class of `hl_parser.py`: a classified token with a kind tag
(`type_`) and a stored value (`value_`). -/
structure word where
  type_ : String
  value_ : WVal
deriving DecidableEq

/-- The module-level mutable state: the `devices` dict (user name ->
(device type, slot)) and the `locations` dict (hex-digit slot key ->
(device type, slot)). -/
structure SymTab where
  devices : List (String × String × Nat)
  locations : List (String × String × Nat)
deriving DecidableEq

instance {ε α : Type} [DecidableEq ε] [DecidableEq α] : DecidableEq (Except ε α) :=
  fun a b =>
    match a, b with
    | .error e1, .error e2 =>
      if h : e1 = e2 then isTrue (by rw [h])
      else isFalse (fun he => h (by cases he; rfl))
    | .error _, .ok _ => isFalse (fun he => Except.noConfusion he)
    | .ok _, .error _ => isFalse (fun he => Except.noConfusion he)
    | .ok a1, .ok a2 =>
      if h : a1 = a2 then isTrue (by rw [h])
      else isFalse (fun he => h (by cases he; rfl))

/-- `device_types` table: recognized device type -> numeric type code. -/
def device_types : List (String × Nat) :=
  [("tracker", 4), ("irtx", 5), ("irrx", 6), ("beeper", 7),
   ("motor-a", 8), ("motor-b", 9), ("led", 10)]

/-- `device_storage` table: device type -> bytes of interpreter storage. -/
def device_storage : List (String × Nat) :=
  [("tracker", 4), ("irtx", 2), ("irrx", 5), ("beeper", 7),
   ("motor-a", 9), ("motor-b", 9), ("led", 4)]

/-- The reserved built-in device names. -/
def special_names : List String :=
  ["_index", "_devices", "_timers", "_cpu"]

/-- Baseline `devices` dict re-established by `reset_devices_and_locations`. -/
def reset_devices : List (String × String × Nat) :=
  [("_index", ("index", 12)), ("_devices", ("devices", 13)),
   ("_timers", ("timers", 14)), ("_cpu", ("cpu", 15))]

/-- Baseline `locations` dict re-established by `reset_devices_and_locations`. -/
def reset_locations : List (String × String × Nat) :=
  [("c", ("index", 12)), ("d", ("devices", 13)),
   ("e", ("timers", 14)), ("f", ("cpu", 15))]

/-- `registers`: per device type, register name -> (byte offset, byte size). -/
def registers : List (String × List (String × Nat × Nat)) :=
  [("tracker", [("status", (0, 1)), ("output", (1, 1)), ("lightlevel", (2, 2))]),
   ("led", [("status", (0, 1)), ("output", (1, 1)), ("lightlevel", (2, 2))]),
   ("beeper", [("status", (0, 1)), ("action", (1, 1)), ("freq", (2, 2)),
               ("duration", (4, 2)), ("tunecode", (6, 1)), ("tunestring", (7, 1)),
               ("tempo", (8, 2))]),
   ("irtx", [("action", (0, 1)), ("char", (1, 1))]),
   ("irrx", [("status", (0, 1)), ("action", (1, 1)), ("check", (2, 1)),
             ("match", (3, 1)), ("char", (4, 1))]),
   ("motor-a", [("status", (0, 1)), ("control", (1, 1)), ("distance", (2, 2))]),
   ("motor-b", [("status", (0, 1)), ("control", (1, 1)), ("distance", (2, 2))]),
   ("index", [("action", (0, 1)), ("8b1cursor", (1, 1)), ("8b1step", (2, 1)),
              ("8b1window", (3, 1)), ("8b2cursor", (4, 1)), ("8b2step", (5, 1)),
              ("16b1cursor", (6, 1)), ("16b1step", (7, 1)),
              ("16b1window", (8, 2)), ("16b2cursor", (10, 1)), ("16b2step", (11, 1)),
              ("16b1temp", (12, 2)), ("16b2temp", (14, 2)),
              ("8b1local", (2, 1)), ("16b1local", (4, 2)),
              ("8b2local", (7, 1)), ("16b2local", (10, 2))]),
   ("devices", [("status", (0, 1)), ("random", (1, 1))]),
   ("timers", [("status", (0, 1)), ("action", (1, 1)), ("pause", (2, 2)),
               ("oneshot", (4, 2)), ("system", (6, 4))]),
   ("cpu", [("acc", (0, 2)), ("flags", (2, 1)), ("counter", (3, 1)),
            ("pc", (4, 2)), ("sp", (6, 2))])]

/-- `string.hexdigits` from the Python standard library. -/
def hexdigits : String := "0123456789abcdefABCDEF"

/-- The symbol table produced by `reset_devices_and_locations()`. -/
def reset_devices_and_locations : SymTab :=
  { devices := reset_devices, locations := reset_locations }

/-- Dict assignment `m[k] = v`: key-based overwrite.  Lookup afterwards
finds `v` at `k` and is unchanged at every other key, exactly as for a
Python dict. -/
def setKey {β : Type} (m : List (String × β)) (k : String) (v : β) :
    List (String × β) :=
  (k, v) :: m.filter (fun p => p.1 != k)

/-- Python string indexing `s[i]` (supports negative indices; out of range
is `none`, i.e. `IndexError`). -/
def pyCharAt (s : String) (i : Int) : Option Char :=
  if 0 ≤ i then s.toList[i.toNat]?
  else if i < -(s.toList.length : Int) then none
  else s.toList[((s.toList.length : Int) + i).toNat]?

/-- `add_device` tail: bind the slot (and the optional lowered name). -/
def add_device_bind (tbl : SymTab) (loc : Int) (dtype : String)
    (lname : Option String) (lh : Char) : Except Err Unit × SymTab :=
  (.ok (),
   { devices :=
       match lname with
       | some s => if s ≠ "" then setKey tbl.devices s (dtype, loc.toNat) else tbl.devices
       | none => tbl.devices,
     locations := setKey tbl.locations (String.singleton lh) (dtype, loc.toNat) })

/-- `add_device` middle: the tracker and motor placement checks, then bind. -/
def add_device_rest (tbl : SymTab) (loc : Int) (dtype : String)
    (lname : Option String) (lh : Char) : Except Err Unit × SymTab :=
  if dtype = "tracker" ∧ loc ≠ 0 then
    (.error (.asm 205 ("A tracker device can only be located at 0, not location " ++
      toString loc)), tbl)
  else if dtype = "motor-a" ∨ dtype = "motor-b" then
    match pyCharAt hexdigits (if loc = 11 then 0 else loc + 1) with
    | none => (.error .indexError, tbl)
    | some mh =>
      match List.lookup (String.singleton mh) tbl.locations with
      | some occ =>
        (.error (.asm 206 ("Motors require two locations yet the second location is already used with a " ++ occ.1)), tbl)
      | none =>
        add_device_bind
          ⟨tbl.devices,
           setKey tbl.locations (String.singleton mh)
             ("motor_second", (if loc = 11 then 0 else loc + 1).toNat)⟩
          loc dtype lname lh
  else add_device_bind tbl loc dtype lname lh

/-- `add_device(loc, dtype, name)`: validates device type, slot range, slot
occupancy and the (lower-cased) name, then delegates the placement rules;
returns the result together with the table at the point of exit. -/
def add_device (tbl : SymTab) (loc : Int) (dtype : String)
    (name : Option String) : Except Err Unit × SymTab :=
  if List.lookup dtype device_types = none then
    (.error (.asm 200 ("Unknown device type: " ++ dtype)), tbl)
  else if loc < 0 ∨ 11 < loc then
    (.error (.asm 201 ("Location (" ++ toString loc ++ ") outside of 0 to 11")), tbl)
  else
    match pyCharAt hexdigits loc with
    | none => (.error .indexError, tbl)
    | some lh =>
      match List.lookup (String.singleton lh) tbl.locations with
      | some occ =>
        (.error (.asm 202 ("Location (" ++ toString loc ++
          ") is already used with a unit of type: " ++ occ.1)), tbl)
      | none =>
        match name.map String.toLower with
        | some s =>
          if s ∈ special_names then
            (.error (.asm 203 ("DEVICE name can not be one of the built-in names [\x27_index\x27, \x27_devices\x27, \x27_timers\x27, \x27_cpu\x27]")), tbl)
          else if (List.lookup s tbl.devices).isSome then
            (.error (.asm 204 ("DEVICE name already used: " ++ s)), tbl)
          else add_device_rest tbl loc dtype (some s) lh
        | none => add_device_rest tbl loc dtype none lh

/-- `get_location_type_and_size(location)`: numeric type code and storage
size of the device occupying a slot, `(0, 0)` for a free or
`motor_second` slot; propagates the `IndexError`/`KeyError` the Python
raises for out-of-range indices or types missing from `device_types`. -/
def get_location_type_and_size (tbl : SymTab) (location : Int) :
    Except Err (Nat × Nat) :=
  match pyCharAt hexdigits location with
  | none => .error .indexError
  | some lh =>
    match List.lookup (String.singleton lh) tbl.locations with
    | some (dtype, _) =>
      if dtype ≠ "motor_second" then
        match List.lookup dtype device_types with
        | none => .error .keyError
        | some t =>
          match List.lookup dtype device_storage with
          | none => .error .keyError
          | some sz => .ok (t, sz)
      else .ok (0, 0)
    | none => .ok (0, 0)

/-- Python `str.startswith` on character lists. -/
def pyStartsWith (cs pre : List Char) : Bool :=
  pre.isPrefixOf cs

/-- Python `str.endswith` on character lists. -/
def pyEndsWith (cs suf : List Char) : Bool :=
  suf.reverse.isPrefixOf cs.reverse

/-- Python substring test `needle in hay` on strings. -/
def pyInStr (needle hay : String) : Bool :=
  hay.toList.tails.any (fun t => needle.toList.isPrefixOf t)

/-- Whitespace recognized by Python `int()` stripping. -/
def pyIsSpace (c : Char) : Bool :=
  c == ' ' || c == '\t' || c == '\n' || c == '\r' || c == '\x0b' || c == '\x0c'

/-- Strip leading and trailing whitespace (as `int()` does). -/
def stripWS (cs : List Char) : List Char :=
  ((cs.dropWhile pyIsSpace).reverse.dropWhile pyIsSpace).reverse

/-- Split off an optional leading sign; `true` means negative. -/
def pySign : List Char → Bool × List Char
  | '+' :: t => (false, t)
  | '-' :: t => (true, t)
  | cs => (false, cs)

/-- Value of one digit character in base `b` (Python digit alphabet). -/
def digitVal (b : Nat) (c : Char) : Option Nat :=
  match
    (if '0' ≤ c ∧ c ≤ '9' then some (c.toNat - 48)
     else if 'a' ≤ c ∧ c ≤ 'z' then some (c.toNat - 87)
     else if 'A' ≤ c ∧ c ≤ 'Z' then some (c.toNat - 55)
     else none) with
  | some d => if d < b then some d else none
  | none => none

/-- Accumulate the value of a digit string in base `b`. -/
def digitsVal (b : Nat) (acc : Nat) : List Char → Option Nat
  | [] => some acc
  | c :: cs =>
    match digitVal b c with
    | some d => digitsVal b (b * acc + d) cs
    | none => none

/-- A nonempty all-digits string in base `b`, else `none`. -/
def parseDigits (b : Nat) (cs : List Char) : Option Nat :=
  if cs = [] then none else digitsVal b 0 cs

/-- Python `int(s, b)` for `b` in `{0, 2, 8, 10, 16}`: strips whitespace,
takes an optional sign, honors a base prefix (`0x`/`0o`/`0b`; mandatory
rules of base 0 included), then reads the digits; `none` models the
`ValueError` Python raises on malformed input. -/
def pyInt (b : Nat) (cs : List Char) : Option Int :=
  match pySign (stripWS cs) with
  | (neg, u) =>
    match
      (if b = 0 then
        match u with
        | '0' :: x :: rest =>
          if x = 'x' ∨ x = 'X' then parseDigits 16 rest
          else if x = 'o' ∨ x = 'O' then parseDigits 8 rest
          else if x = 'b' ∨ x = 'B' then parseDigits 2 rest
          else if (x :: rest).all (fun c => c == '0') then some 0
          else none
        | _ => parseDigits 10 u
      else
        parseDigits b
          (match u with
           | '0' :: x :: rest =>
             if (b = 16 ∧ (x = 'x' ∨ x = 'X')) ∨ (b = 8 ∧ (x = 'o' ∨ x = 'O')) ∨
                (b = 2 ∧ (x = 'b' ∨ x = 'B'))
             then rest else u
           | _ => u)) with
    | some n => some (if neg then -(n : Int) else (n : Int))
    | none => none

/-- `parse_bases(snum, string=...)`: character constant in single quotes,
the (dead-by-default) double-quote check, `/2`, `/10`, `/16` base
suffixes, else `int(snum, 0)`.  Called on an `int` value it models the
`AttributeError` from `int.startswith`. -/
def parse_bases (snum : WVal) (strflag : Bool := false) : Except Err Int :=
  match snum with
  | .i _ => .error .attributeError
  | .s str =>
    if pyStartsWith str.toList ['\''] && pyEndsWith str.toList ['\''] then
      match (str.toList.drop 1).dropLast with
      | [c] => .ok (c.toNat : Int)
      | _ => .error .typeError
    else if strflag && pyStartsWith str.toList ['"'] && pyEndsWith str.toList ['"'] then
      .error (.asm 211 "Error - use single quotes for an ascii constant")
    else if pyEndsWith str.toList ['/', '2'] then
      match pyInt 2 (str.toList.dropLast.dropLast) with
      | some n => .ok n
      | none => .error .valueError
    else if pyEndsWith str.toList ['/', '1', '0'] then
      match pyInt 10 (str.toList.dropLast.dropLast.dropLast) with
      | some n => .ok n
      | none => .error .valueError
    else if pyEndsWith str.toList ['/', '1', '6'] then
      match pyInt 16 (str.toList.dropLast.dropLast.dropLast) with
      | some n => .ok n
      | none => .error .valueError
    else
      match pyInt 0 str.toList with
      | some n => .ok n
      | none => .error .valueError

/-- First-colon split of a character list, `none` when there is no colon. -/
def splitFirstColon : List Char → Option (List Char × List Char)
  | [] => none
  | c :: cs =>
    if c = ':' then some ([], cs)
    else
      match splitFirstColon cs with
      | none => none
      | some (a, b) => some (c :: a, b)

/-- Python `s.split(":", 2)`: at most two splits, so at most three parts. -/
def splitColon2 (cs : List Char) : List (List Char) :=
  match splitFirstColon cs with
  | none => [cs]
  | some (a, r) =>
    match splitFirstColon r with
    | none => [a, r]
    | some (b, r2) => [a, b, r2]

/-- Membership in `string.hexdigits` (Python `c in string.hexdigits`). -/
def pyIsHexDigit (c : Char) : Bool :=
  hexdigits.toList.contains c

/-- The direct-address guard of `parse_mod_reg`: exactly two characters,
both in `string.hexdigits`. -/
def two_hex_form : List Char → Bool
  | [a, b] => pyIsHexDigit a && pyIsHexDigit b
  | _ => false

/-- Register-part resolution of `parse_mod_reg` (its lines after the
subject has resolved to `dtype`/`loc`): look the part up in the device
type's register map; otherwise, if it is a substring of
`"0123456789abcdef"` (Python's `in` on `str` is a substring test), read it
with `int(_, 16)`; otherwise report error 214. -/
def resolve_reg (dtype : String) (loc : Nat) (rp : String) : Except Err Int :=
  match List.lookup dtype registers with
  | none => .error .keyError
  | some regs =>
    match List.lookup rp regs with
    | some (off, _) => .ok ((off + (loc <<< 4) : Nat) : Int)
    | none =>
      if pyInStr rp "0123456789abcdef" then
        match pyInt 16 rp.toList with
        | some n => .ok (n + ((loc <<< 4 : Nat) : Int))
        | none => .error .valueError
      else .error (.asm 214 ("Didn\x27t understand the register name/number: " ++ rp))

/-- `parse_mod_reg(smodreg)`: two hex digits resolve directly; otherwise
the lower-cased text must split at `:` into exactly a subject and a
register part; the subject resolves against `devices` then `locations`;
no colon at all is error 215. -/
def parse_mod_reg (tbl : SymTab) (smodreg : String) : Except Err Int :=
  if two_hex_form smodreg.toList then
    match pyInt 16 smodreg.toList with
    | some n => .ok n
    | none => .error .valueError
  else if smodreg.toList.contains ':' then
    match splitColon2 (smodreg.toList.map Char.toLower) with
    | [p0, p1] =>
      (match List.lookup (String.mk p0) tbl.devices with
       | some (dtype, loc) => resolve_reg dtype loc (String.mk p1)
       | none =>
         match List.lookup (String.mk p0) tbl.locations with
         | some (dtype, loc) => resolve_reg dtype loc (String.mk p1)
         | none =>
           .error (.asm 213 ("Didn\x27t understand the module name/number: " ++
             String.mk p0)))
    | _ => .error (.asm 212 ("Invalid mod/reg syntax: " ++ smodreg))
  else .error (.asm 215 ("Error - can\x27t parse " ++ smodreg ++ " as a modreg"))

/-- `word.num()`: decode the stored value with `parse_bases` — note there
is no kind check at all in the source. -/
def word.num (w : word) : Except Err Int :=
  parse_bases w.value_

/-- `word.anum()`: kind must be `arg` or `const` (else error 207); a
`const` returns its stored value unchanged, an `arg` is decoded with
`parse_bases`. -/
def word.anum (w : word) : Except Err WVal :=
  if ¬(w.type_ = "arg" ∨ w.type_ = "const") then
    .error (.asm 207 "Expected an argument or constant!")
  else if w.type_ = "const" then .ok w.value_
  else (parse_bases w.value_).map WVal.i

/-- Loop of `prechop_line`: state is (remaining characters, `in_string`,
`in_escape`, current component, emitted components).  `in_string` is a
`Bool` because the only quote character the source ever stores in it is
`"` (the `c in ['"']` test). -/
def prechop_aux : List Char → Bool → Bool → List Char → List (List Char) →
    List (List Char)
  | [], _, _, comp, acc => if comp = [] then acc else acc ++ [comp]
  | c :: cs, instr, inesc, comp, acc =>
    if c = '\n' then (if comp = [] then acc else acc ++ [comp])
    else if inesc = true then prechop_aux cs instr false (comp ++ [c]) acc
    else if instr = true ∧ c = '\\' then prechop_aux cs instr true comp acc
    else if c = '#' ∧ instr = false then (if comp = [] then acc else acc ++ [comp])
    else if instr = false ∧ c = '"' then prechop_aux cs true inesc (comp ++ [c]) acc
    else if instr = true ∧ c = '"' then prechop_aux cs false inesc (comp ++ [c]) acc
    else if instr = false ∧ (c = ' ' ∨ c = '\t' ∨ c = ',') then
      prechop_aux cs instr inesc [] (if comp = [] then acc else acc ++ [comp])
    else prechop_aux cs instr inesc (comp ++ [c]) acc

/-- `prechop_line(line)`: split a raw line into segments, honoring quotes,
backslash escapes inside strings, and `#` comments. -/
def prechop_line (line : List Char) : List (List Char) :=
  prechop_aux line false false [] []

/-- Whether a segment starts with the comment character `#`. -/
def startsWithHash : List Char → Bool
  | [] => false
  | c :: _ => c == '#'

/-- Classification of one nonempty, non-comment segment in `chop_line`:
`none` means the segment is silently dropped (the `continue` for an empty
quoted string), `some ws` is the updated word list. -/
def chop_class (tbl : SymTab) (ws : List word) (s : List Char) :
    Except Err (Option (List word)) :=
  if pyStartsWith s [':'] then
    .ok (some (ws ++ [word.mk "label" (.s (String.mk (s.drop 1)))]))
  else if ws = [] then
    .ok (some (ws ++ [word.mk "op" (.s (String.mk s))]))
  else if (pyStartsWith s ['"'] && pyEndsWith s ['"']) ||
          (pyStartsWith s ['\''] && pyEndsWith s ['\'']) then
    if s.length ≤ 2 then .ok none
    else .ok (some (ws ++ [word.mk "string" (.s (String.mk ((s.drop 1).dropLast)))]))
  else if pyStartsWith s ['$'] then
    match
      (if s.length = 4 ∧ s[1]? = some '\'' ∧ s[3]? = some '\'' then
        match s[2]? with
        | some c => .ok (c.toNat : Int)
        | none => .error Err.indexError
      else parse_bases (.s (String.mk (s.drop 1)))) with
    | .error e => .error e
    | .ok n => .ok (some (ws ++ [word.mk "const" (.i n)]))
  else if pyStartsWith s ['%'] then
    match parse_mod_reg tbl (String.mk (s.drop 1)) with
    | .error e => .error e
    | .ok n => .ok (some (ws ++ [word.mk "modreg" (.i n)]))
  else if pyStartsWith s [':'] then
    .ok (some (ws ++ [word.mk "label" (.s (String.mk (s.drop 1)))]))
  else if pyStartsWith s ['@'] then
    .ok (some (ws ++ [word.mk "var" (.s (String.mk (s.drop 1)))]))
  else .ok (some (ws ++ [word.mk "arg" (.s (String.mk s))]))

/-- Loop of `chop_line`: skip empty segments, stop at a `#` segment
(the defensive second comment check), else classify and continue. -/
def chop_aux (tbl : SymTab) : List (List Char) → List word → Except Err (List word)
  | [], ws => .ok ws
  | s :: rest, ws =>
    if s = [] then chop_aux tbl rest ws
    else if startsWithHash s then .ok ws
    else
      match chop_class tbl ws s with
      | .error e => .error e
      | .ok none => chop_aux tbl rest ws
      | .ok (some ws') => chop_aux tbl rest ws'

/-- `chop_line(line)`: tokenize one raw source line. -/
def chop_line (tbl : SymTab) (line : List Char) : Except Err (List word) :=
  chop_aux tbl (prechop_line line) []

/-- The `chop_line` loop with the defensive `#` check removed — used to
state that the check is unreachable. -/
def chop_aux_nd (tbl : SymTab) : List (List Char) → List word → Except Err (List word)
  | [], ws => .ok ws
  | s :: rest, ws =>
    if s = [] then chop_aux_nd tbl rest ws
    else
      match chop_class tbl ws s with
      | .error e => .error e
      | .ok none => chop_aux_nd tbl rest ws
      | .ok (some ws') => chop_aux_nd tbl rest ws'

/-- `chop_line` without the defensive `#` check. -/
def chop_line_nodefense (tbl : SymTab) (line : List Char) : Except Err (List word) :=
  chop_aux_nd tbl (prechop_line line) []

/-- Dict update law: looking up any key after `m[k] = v`. -/
theorem lookup_setKey {β : Type} (m : List (String × β)) (k k' : String) (v : β) :
    List.lookup k' (setKey m k v) =
      if k' = k then some v else List.lookup k' m := by
  unfold setKey
  by_cases h : k' = k
  · subst h
    simp [List.lookup]
  · simp only [if_neg h, List.lookup]
    rw [show (k' == k) = false from beq_eq_false_iff_ne.mpr h]
    induction m with
    | nil => simp
    | cons p rest ih =>
      cases p with
      | mk a b =>
        rw [List.filter_cons]
        by_cases hp : a = k
        · rw [if_neg (by simp [hp])]
          rw [ih]
          simp only [List.lookup]
          rw [show (k' == a) = false from beq_eq_false_iff_ne.mpr (by rw [hp]; exact h)]
        · rw [if_pos (by simp [hp])]
          simp only [List.lookup]
          cases hab : (k' == a) with
          | true => rfl
          | false => exact ih

/-- Looking up the key just set. -/
theorem lookup_setKey_self {β : Type} (m : List (String × β)) (k : String) (v : β) :
    List.lookup k (setKey m k v) = some v := by
  rw [lookup_setKey]; simp

/-- A recognized device type is never the internal continuation marker. -/
theorem lookup_device_types_ne_marker (dtype : String) (tc : Nat)
    (h : List.lookup dtype device_types = some tc) : dtype ≠ "motor_second" := by
  intro he
  subst he
  rw [show List.lookup "motor_second" device_types = none from rfl] at h
  exact Option.noConfusion h

/-- Claim C2: declaring a device at an occupied slot (with a recognized
device type and an in-range slot, the checks that precede occupancy)
fails with error 202 naming the occupant, and every failure path of
`add_device` returns the table unchanged. -/
theorem C2_slot_already_used_immutable (tbl : SymTab) (loc : Int) (dtype : String)
    (name : Option String) (lh : Char) (occ : String × Nat)
    (hdt : (List.lookup dtype device_types).isSome = true)
    (h0 : 0 ≤ loc) (h11 : loc ≤ 11)
    (hch : pyCharAt hexdigits loc = some lh)
    (hocc : List.lookup (String.singleton lh) tbl.locations = some occ) :
    add_device tbl loc dtype name =
      (.error (.asm 202 ("Location (" ++ toString loc ++
        ") is already used with a unit of type: " ++ occ.1)), tbl)
    ∧ ∀ (t2 : SymTab) (l2 : Int) (d2 : String) (n2 : Option String) (e : Err)
        (t2' : SymTab), add_device t2 l2 d2 n2 = (.error e, t2') → t2' = t2 := by
  constructor
  · unfold add_device
    rw [if_neg (Option.isSome_iff_ne_none.mp hdt)]
    rw [if_neg (by omega)]
    simp only [hch, hocc]
  · intro t2 l2 d2 n2 e t2' h
    unfold add_device add_device_rest add_device_bind at h
    repeat' split at h
    all_goals
      first
      | (injection h with h1 h2; exact h2.symm)
      | (injection h with h1 h2; exact Except.noConfusion h1)

/-- Witness for C2: a beeper declared onto slot 3 already holding a led. -/
theorem C2_slot_already_used_immutable_witness :
    add_device ⟨reset_devices, ("3", ("led", 3)) :: reset_locations⟩ 3 "beeper" none =
      (.error (.asm 202 "Location (3) is already used with a unit of type: led"),
       ⟨reset_devices, ("3", ("led", 3)) :: reset_locations⟩) :=
  (C2_slot_already_used_immutable ⟨reset_devices, ("3", ("led", 3)) :: reset_locations⟩
    3 "beeper" none '3' ("led", 3) (by decide) (by decide) (by decide) (by decide)
    (by decide)).1

/-- Claim C1: on a freshly reset table, a successful
`add_device(loc, dtype, name)` for `loc ∈ [0, 11]` and a recognized
`dtype` makes `get_location_type_and_size(loc)` return exactly that
type's numeric code and storage size. -/
theorem C1_fresh_declare_then_resolve (loc : Int) (dtype : String)
    (name : Option String) (tbl' : SymTab) (tc sz : Nat)
    (h0 : 0 ≤ loc) (h11 : loc ≤ 11)
    (htc : List.lookup dtype device_types = some tc)
    (hsz : List.lookup dtype device_storage = some sz)
    (hok : add_device reset_devices_and_locations loc dtype name = (.ok (), tbl')) :
    get_location_type_and_size tbl' loc = .ok (tc, sz) := by
  unfold add_device add_device_rest add_device_bind at hok
  rw [if_neg (by rw [htc]; exact fun he => Option.noConfusion he)] at hok
  rw [if_neg (by omega)] at hok
  rcases hc : pyCharAt hexdigits loc with _ | lh
  · rw [hc] at hok
    simp at hok
  · simp only [hc] at hok
    repeat' split at hok
    all_goals (try (injection hok with h1 h2; exact Except.noConfusion h1))
    all_goals (
      injection hok with h1 h2
      subst h2
      simp only [get_location_type_and_size, hc, lookup_setKey_self]
      rw [if_pos (lookup_device_types_ne_marker dtype tc htc)]
      rw [htc, hsz])

/-- Every device name bound by the reset baseline maps to a reserved slot,
never to slot 0. -/
theorem lookup_reset_devices_snd (k : String) (v : String × Nat)
    (h : List.lookup k reset_devices = some v) : v.2 ≠ 0 := by
  simp only [reset_devices, List.lookup] at h
  repeat' split at h
  all_goals (first | (cases h; decide) | exact Option.noConfusion h)

/-- Successful motor declaration at slot 11 on the reset table: the
resulting `locations` binds slot 0 to `motor_second` and slot 11 to the
motor type, and no user device name maps to slot 0. -/
theorem motor_aux (mtype : String) (name : Option String) (tbl' : SymTab)
    (hma : mtype = "motor-a" ∨ mtype = "motor-b")
    (h1 : add_device reset_devices_and_locations 11 mtype name = (.ok (), tbl')) :
    tbl'.locations =
      setKey (setKey reset_locations "0" ("motor_second", 0)) "b" (mtype, 11)
    ∧ ∀ k v, List.lookup k tbl'.devices = some v → v.2 ≠ 0 := by
  rcases name with _ | nm
  · have key : ∀ mt : String, mt = "motor-a" ∨ mt = "motor-b" →
        add_device reset_devices_and_locations 11 mt none =
          (.ok (), ⟨reset_devices,
            setKey (setKey reset_locations "0" ("motor_second", 0)) "b" (mt, 11)⟩) := by
      rintro mt (rfl | rfl) <;> decide
    rw [key mtype hma] at h1
    injection h1 with h1a h1b
    subst h1b
    exact ⟨rfl, fun k v hkv => lookup_reset_devices_snd k v hkv⟩
  · rcases hma with rfl | rfl
    all_goals (
      unfold add_device add_device_rest add_device_bind at h1
      first
      | rw [if_neg (show ¬(List.lookup "motor-a" device_types = none) from by decide)] at h1
      | rw [if_neg (show ¬(List.lookup "motor-b" device_types = none) from by decide)] at h1
      rw [if_neg (show ¬((11:Int) < 0 ∨ 11 < (11:Int)) from by decide)] at h1
      simp only [show pyCharAt hexdigits 11 = some 'b' from rfl] at h1
      simp only [show List.lookup (String.singleton 'b')
        reset_devices_and_locations.locations = none from rfl] at h1
      simp only [Option.map_some'] at h1
      (first
       | rw [if_neg (show ¬("motor-a" = "tracker" ∧ (11:Int) ≠ 0) from by decide)] at h1
       | rw [if_neg (show ¬("motor-b" = "tracker" ∧ (11:Int) ≠ 0) from by decide)] at h1)
      split at h1
      · exact Except.noConfusion (congrArg Prod.fst h1)
      split at h1
      · exact Except.noConfusion (congrArg Prod.fst h1)
      simp only [true_or, or_true, if_true] at h1
      simp only [show pyCharAt hexdigits 0 = some '0' from rfl] at h1
      simp only [show List.lookup (String.singleton '0')
        reset_devices_and_locations.locations = none from rfl] at h1
      simp only [show ((0:Int)).toNat = 0 from rfl,
        show ((11:Int)).toNat = 11 from rfl,
        show String.singleton '0' = "0" from rfl,
        show String.singleton 'b' = "b" from rfl,
        reset_devices_and_locations] at h1
      injection h1 with h1a h1b
      subst h1b
      refine ⟨rfl, ?_⟩
      intro k v hkv
      simp only at hkv
      split at hkv
      · rw [lookup_setKey] at hkv
        split at hkv
        · cases hkv; decide
        · exact lookup_reset_devices_snd k v hkv
      · exact lookup_reset_devices_snd k v hkv)

/-- Claim C3: on the reset table, a successful motor declaration at slot
11 binds slot 11 to the motor type and slot 0 to the `motor_second`
continuation marker with no device name of its own; any subsequent
`add_device` at slot 0 with a recognized device type then fails with
error 202 naming `motor_second`, leaving the table unchanged. -/
theorem C3_motor_at_slot_eleven_wraps (mtype dtype2 : String)
    (name name2 : Option String) (tbl' : SymTab)
    (hma : mtype = "motor-a" ∨ mtype = "motor-b")
    (h1 : add_device reset_devices_and_locations 11 mtype name = (.ok (), tbl'))
    (hd2 : (List.lookup dtype2 device_types).isSome = true) :
    List.lookup "b" tbl'.locations = some (mtype, 11)
    ∧ List.lookup "0" tbl'.locations = some ("motor_second", 0)
    ∧ (∀ k v, List.lookup k tbl'.devices = some v → v.2 ≠ 0)
    ∧ add_device tbl' 0 dtype2 name2 =
        (.error (.asm 202 "Location (0) is already used with a unit of type: motor_second"),
         tbl') := by
  obtain ⟨hloc, hdev⟩ := motor_aux mtype name tbl' hma h1
  have hb : List.lookup "b" tbl'.locations = some (mtype, 11) := by
    rw [hloc, lookup_setKey]; simp
  have h0 : List.lookup "0" tbl'.locations = some ("motor_second", 0) := by
    rw [hloc, lookup_setKey]
    rw [if_neg (by decide)]
    rw [lookup_setKey]
    simp
  refine ⟨hb, h0, hdev, ?_⟩
  unfold add_device
  rw [if_neg (Option.isSome_iff_ne_none.mp hd2)]
  rw [if_neg (show ¬((0:Int) < 0 ∨ 11 < (0:Int)) from by decide)]
  simp only [show pyCharAt hexdigits 0 = some '0' from rfl]
  rw [show String.singleton '0' = "0" from rfl]
  simp only [h0]
  rw [show ("Location (" ++ toString (0:Int) ++
    ") is already used with a unit of type: " ++ "motor_second") =
    "Location (0) is already used with a unit of type: motor_second" from by decide]

/-- Witness for C3: motor-a declared at slot 11, then a led at slot 0. -/
theorem C3_motor_at_slot_eleven_wraps_witness :
    add_device
      ⟨reset_devices,
       [("b", ("motor-a", 11)), ("0", ("motor_second", 0)), ("c", ("index", 12)),
        ("d", ("devices", 13)), ("e", ("timers", 14)), ("f", ("cpu", 15))]⟩
      0 "led" none =
      (.error (.asm 202 "Location (0) is already used with a unit of type: motor_second"),
       ⟨reset_devices,
        [("b", ("motor-a", 11)), ("0", ("motor_second", 0)), ("c", ("index", 12)),
         ("d", ("devices", 13)), ("e", ("timers", 14)), ("f", ("cpu", 15))]⟩) :=
  (C3_motor_at_slot_eleven_wraps "motor-a" "led" none none
    ⟨reset_devices,
     [("b", ("motor-a", 11)), ("0", ("motor_second", 0)), ("c", ("index", 12)),
      ("d", ("devices", 13)), ("e", ("timers", 14)), ("f", ("cpu", 15))]⟩
    (Or.inl rfl) (by decide) (by decide)).2.2.2

/-- Witness for C1: a led declared at slot 3 of the reset table. -/
theorem C1_fresh_declare_then_resolve_witness :
    get_location_type_and_size
      ⟨reset_devices, ("3", ("led", 3)) :: reset_locations⟩ 3 = .ok (10, 4) :=
  C1_fresh_declare_then_resolve 3 "led" none
    ⟨reset_devices, ("3", ("led", 3)) :: reset_locations⟩ 10 4
    (by decide) (by decide) (by decide) (by decide) (by decide)

/-- Counterexample to C4: on the freshly reset table, resolving the
reserved slot 12 raises `KeyError` (its pseudo-type `index` is absent
from `device_types`), so `get_location_type_and_size` is not total on
slots 12-15. -/
theorem C4_reserved_slot_keyerror_cx :
    get_location_type_and_size reset_devices_and_locations 12 = .error .keyError := by
  decide

/-- Claim C4 (amended): `get_location_type_and_size` returns the type
code and storage size for a slot occupied by a recognized device type,
the `(0, 0)` sentinel for a free or `motor_second` slot, but raises
`KeyError` when the occupying type is missing from `device_types` (as on
the reserved slots 12-15) and `IndexError` when the slot argument is
outside Python's index range for `string.hexdigits`. -/
theorem C4_resolve_slot_amended (tbl : SymTab) (loc : Int) (lh : Char)
    (dtype : String) (l tc ts : Nat)
    (hch : pyCharAt hexdigits loc = some lh) :
    (List.lookup (String.singleton lh) tbl.locations = none →
      get_location_type_and_size tbl loc = .ok (0, 0))
    ∧ (List.lookup (String.singleton lh) tbl.locations = some ("motor_second", l) →
      get_location_type_and_size tbl loc = .ok (0, 0))
    ∧ (List.lookup (String.singleton lh) tbl.locations = some (dtype, l) →
      List.lookup dtype device_types = some tc →
      List.lookup dtype device_storage = some ts →
      get_location_type_and_size tbl loc = .ok (tc, ts))
    ∧ (List.lookup (String.singleton lh) tbl.locations = some (dtype, l) →
      dtype ≠ "motor_second" →
      List.lookup dtype device_types = none →
      get_location_type_and_size tbl loc = .error .keyError)
    ∧ (∀ loc2 : Int, pyCharAt hexdigits loc2 = none →
      get_location_type_and_size tbl loc2 = .error .indexError) := by
  refine ⟨?_, ?_, ?_, ?_, ?_⟩
  · intro hl
    unfold get_location_type_and_size
    simp only [hch, hl]
  · intro hl
    unfold get_location_type_and_size
    simp only [hch, hl]
    rw [if_neg (show ¬("motor_second" ≠ "motor_second") from by simp)]
  · intro hl htc hts
    unfold get_location_type_and_size
    simp only [hch, hl]
    rw [if_pos (lookup_device_types_ne_marker dtype tc htc)]
    rw [htc, hts]
  · intro hl hne htc
    unfold get_location_type_and_size
    simp only [hch, hl]
    rw [if_pos hne, htc]
  · intro loc2 hn
    unfold get_location_type_and_size
    simp only [hn]

/-- Witness for C4 (amended): the free slot 5 of the reset table resolves
to the sentinel pair. -/
theorem C4_resolve_slot_amended_witness :
    get_location_type_and_size reset_devices_and_locations 5 = .ok (0, 0) :=
  (C4_resolve_slot_amended reset_devices_and_locations 5 '5' "led" 0 0 0
    (by decide)).1 (by decide)

/-- Claim C5: tokenizing `say "hi, \"bob\""` yields exactly an operator
token `say` and a string token `hi, "bob"` — the comma inside the quotes
does not split the segment and each escaped quote is kept as a literal
quote with the backslash consumed. -/
theorem C5_tokenize_escaped_string :
    chop_line reset_devices_and_locations "say \"hi, \\\"bob\\\"\"".toList =
      .ok [word.mk "op" (.s "say"), word.mk "string" (.s "hi, \"bob\"")] := by
  decide

/-- Counterexample to C6: with subject `_cpu` (slot 15), the register
part `12` is neither a register name of `cpu` nor a single hex digit,
yet `parse_mod_reg` accepts it — `"12"` passes Python's substring test
against `"0123456789abcdef"` — and resolves to `0x12 + (15 << 4) = 258`
instead of failing with error 214. -/
theorem C6_multichar_regpart_accepted_cx :
    parse_mod_reg reset_devices_and_locations "_cpu:12" = .ok 258 := by
  decide

/-- Claim C6 (amended): in the colon form with resolved subject of type
`dtype` at slot `loc`, the register part resolves by register name to its
byte offset composed with `loc << 4`; failing that, any register part
that is a contiguous substring of `"0123456789abcdef"` (single hex digits,
but also multi-character runs such as `12`) is read as a base-16 number
and composed the same way, except the empty part, which raises
`ValueError`; only a part that is neither a register name nor such a
substring fails with error 214 (`UnknownRegisterReference`). -/
theorem C6_register_part_resolution_amended (dtype : String) (loc : Nat)
    (rp : String) (regs : List (String × Nat × Nat)) (off sz : Nat) (n : Int)
    (hd : List.lookup dtype registers = some regs) :
    (List.lookup rp regs = some (off, sz) →
      resolve_reg dtype loc rp = .ok ((off + (loc <<< 4) : Nat) : Int))
    ∧ (List.lookup rp regs = none → pyInStr rp "0123456789abcdef" = true →
      pyInt 16 rp.toList = some n →
      resolve_reg dtype loc rp = .ok (n + ((loc <<< 4 : Nat) : Int)))
    ∧ (List.lookup rp regs = none → pyInStr rp "0123456789abcdef" = true →
      pyInt 16 rp.toList = none →
      resolve_reg dtype loc rp = .error .valueError)
    ∧ (List.lookup rp regs = none → pyInStr rp "0123456789abcdef" = false →
      resolve_reg dtype loc rp = .error (.asm 214
        ("Didn\x27t understand the register name/number: " ++ rp))) := by
  refine ⟨?_, ?_, ?_, ?_⟩
  · intro hr
    unfold resolve_reg
    simp only [hd, hr]
  · intro hr hsub hn
    unfold resolve_reg
    simp only [hd, hr, hsub, hn]
    simp
  · intro hr hsub hn
    unfold resolve_reg
    simp only [hd, hr, hsub, hn]
    simp
  · intro hr hsub
    unfold resolve_reg
    simp only [hd, hr, hsub]
    rw [if_neg (show ¬(false = true) from by simp)]

/-- Witness for C6 (amended): the multi-character register part `12`
against the `cpu` register map at slot 15 resolves to 258. -/
theorem C6_register_part_resolution_amended_witness :
    resolve_reg "cpu" 15 "12" = .ok 258 :=
  (C6_register_part_resolution_amended "cpu" 15 "12"
    [("acc", (0, 2)), ("flags", (2, 1)), ("counter", (3, 1)),
     ("pc", (4, 2)), ("sp", (6, 2))] 0 0 18
    (by decide)).2.1 (by decide) (by decide) (by decide)

/-- Counterexample to C7: resolving the operand `zz` fails, but with
error 215 (no colon present: unparsable mod/reg), not with error 213
(`UnknownModuleReference`). -/
theorem C7_no_colon_gives_215_cx :
    parse_mod_reg reset_devices_and_locations "zz" =
      .error (.asm 215 "Error - can\x27t parse zz as a modreg") := by
  decide

/-- Claim C7 (amended): operand text that is not two hex digits and
contains no colon — such as `zz` — always fails with error 215
(malformed mod/reg syntax); error 213 (`UnknownModuleReference`) is
raised only in the colon form, when the subject resolves against neither
`devices` nor `locations`. -/
theorem C7_unknown_operand_amended (tbl : SymTab) (s : String)
    (h1 : two_hex_form s.toList = false)
    (h2 : s.toList.contains ':' = false) :
    parse_mod_reg tbl s =
      .error (.asm 215 ("Error - can\x27t parse " ++ s ++ " as a modreg")) := by
  unfold parse_mod_reg
  rw [if_neg (show ¬(two_hex_form s.toList = true) from by rw [h1]; simp)]
  rw [if_neg (show ¬(s.toList.contains ':' = true) from by rw [h2]; simp)]

/-- Witness for C7 (amended): the operand `qq` on the reset table. -/
theorem C7_unknown_operand_amended_witness :
    parse_mod_reg reset_devices_and_locations "qq" =
      .error (.asm 215 "Error - can\x27t parse qq as a modreg") :=
  C7_unknown_operand_amended reset_devices_and_locations "qq"
    (by decide) (by decide)

/-- Counterexample to C8: as invoked by the tokenizer and the token value
accessors (the `string` flag left at its default `False`), the
double-quoted numeral `"12"` fails with the unhandled `ValueError` from
`int()`, not with the error-211 quoting message. -/
theorem C8_double_quoted_numeral_cx :
    parse_bases (.s "\"12\"") = .error .valueError
    ∧ (word.mk "arg" (.s "\"12\"")).num = .error .valueError := by
  decide

/-- Claim C8 (amended): for any text wrapped in double quotes,
`parse_bases` raises `ValueError` when called the way the tokenizer and
the accessors call it (flag unset), and reports the error-211 quoting
message only when the `string` flag is passed as `True`, which no caller
in this module does. -/
theorem C8_double_quoted_numeral_amended (s : List Char)
    (h1 : s.head? = some '"') (h2 : s.getLast? = some '"') :
    parse_bases (.s (String.mk s)) false = .error .valueError
    ∧ parse_bases (.s (String.mk s)) true =
        .error (.asm 211 "Error - use single quotes for an ascii constant") := by
  rcases s with _ | ⟨c, t⟩
  · exact absurd h1 (by simp)
  · have hc : c = '"' := by simpa using h1
    subst hc
    rcases hrev : ('"' :: t).reverse with _ | ⟨c', t'⟩
    · exact absurd hrev (by simp)
    · have hc' : c' = '"' := by
        have := List.head?_reverse ('"' :: t)
        rw [hrev] at this
        simp only [List.head?] at this
        rw [h2] at this
        exact (Option.some.inj this)
      subst hc'
      have htl : String.toList (String.mk ('"' :: t)) = '"' :: t := rfl
      have hsw : pyStartsWith ('"' :: t) ['\''] = false := by
        simp [pyStartsWith, List.isPrefixOf]
      have hdq : pyStartsWith ('"' :: t) ['"'] = true := by
        simp [pyStartsWith, List.isPrefixOf]
      have hedq : pyEndsWith ('"' :: t) ['"'] = true := by
        unfold pyEndsWith
        rw [hrev]
        simp [List.isPrefixOf]
      have he2 : pyEndsWith ('"' :: t) ['/', '2'] = false := by
        unfold pyEndsWith
        rw [hrev]
        simp [List.isPrefixOf]
      have he10 : pyEndsWith ('"' :: t) ['/', '1', '0'] = false := by
        unfold pyEndsWith
        rw [hrev]
        simp [List.isPrefixOf]
      have he16 : pyEndsWith ('"' :: t) ['/', '1', '6'] = false := by
        unfold pyEndsWith
        rw [hrev]
        simp [List.isPrefixOf]
      have hstrip : stripWS ('"' :: t) = '"' :: t := by
        unfold stripWS
        rw [show List.dropWhile pyIsSpace ('"' :: t) = '"' :: t from by
          rw [List.dropWhile_cons]; simp [pyIsSpace]]
        rw [hrev]
        rw [show List.dropWhile pyIsSpace ('"' :: t') = '"' :: t' from by
          rw [List.dropWhile_cons]; simp [pyIsSpace]]
        rw [← hrev, List.reverse_reverse]
      have hint : pyInt 0 ('"' :: t) = none := by
        unfold pyInt
        rw [hstrip]
        rfl
      constructor
      · simp only [parse_bases]
        rw [htl]
        rw [hsw]
        simp only [Bool.false_and, if_neg (show ¬(false = true) from by simp)]
        rw [he2, he10, he16]
        simp only [Bool.false_and, if_neg (show ¬(false = true) from by simp)]
        rw [hint]
      · simp only [parse_bases]
        rw [htl]
        rw [hsw]
        simp only [Bool.false_and, if_neg (show ¬(false = true) from by simp)]
        rw [hdq, hedq]
        simp

/-- Witness for C8 (amended): the double-quoted numeral text `"7"`. -/
theorem C8_double_quoted_numeral_amended_witness :
    parse_bases (.s (String.mk ['"', '7', '"'])) false = .error .valueError :=
  (C8_double_quoted_numeral_amended ['"', '7', '"'] (by decide) (by decide)).1

/-- Counterexample to C9: `word.num` performs no kind check — on an `arg`
token holding the text `12` it returns 12 instead of failing with error
207, and on a `const` token storing an `int` it raises `AttributeError`
(`int` has no `startswith`) instead of returning the integer directly. -/
theorem C9_num_no_kind_check_cx :
    (word.mk "arg" (.s "12")).num = .ok 12
    ∧ (word.mk "const" (.i 5)).num = .error .attributeError := by
  decide

/-- Claim C9 (amended): the kind-checking numeric accessor is `anum`: it
fails with error 207 (`TokenKindMismatch`) unless the kind is `arg` or
`const`, returns the stored value unchanged on a `const`, and decodes via
`parse_bases` only on an `arg`.  `num` itself never checks the kind: it
feeds whatever value is stored to `parse_bases`, raising
`AttributeError` on an integer-stored value. -/
theorem C9_numeric_accessors_amended (t : String) (v : WVal) (s : String)
    (n : Int) (hk1 : t ≠ "arg") (hk2 : t ≠ "const") :
    (word.mk t v).anum = .error (.asm 207 "Expected an argument or constant!")
    ∧ (word.mk "const" v).anum = .ok v
    ∧ (word.mk "arg" (.s s)).anum = (parse_bases (.s s)).map WVal.i
    ∧ (word.mk t v).num = parse_bases v
    ∧ (word.mk "const" (.i n)).num = .error .attributeError := by
  refine ⟨?_, ?_, ?_, rfl, rfl⟩
  · unfold word.anum
    rw [if_pos (show ¬(t = "arg" ∨ t = "const") from by
      rintro (h | h)
      · exact hk1 h
      · exact hk2 h)]
  · unfold word.anum
    rw [if_neg (not_not_intro (Or.inr rfl))]
    rw [if_pos rfl]
  · unfold word.anum
    rw [if_neg (not_not_intro (Or.inl rfl))]
    rw [if_neg (show ¬(("arg" : String) = "const") from by decide)]

/-- Witness for C9 (amended): a `string`-kind token rejected by `anum`. -/
theorem C9_numeric_accessors_amended_witness :
    (word.mk "string" (.s "x")).anum =
      .error (.asm 207 "Expected an argument or constant!") :=
  (C9_numeric_accessors_amended "string" (.s "x") "12" 5
    (by decide) (by decide)).1

/-- Appending a character to a segment cannot make it start with `#`
unless it was empty and the character is `#` itself. -/
theorem cons_append_head (comp : List Char) (c : Char)
    (h1 : comp = [] → c ≠ '#')
    (h2 : comp.head? ≠ some '#') :
    (comp ++ [c]).head? ≠ some '#' := by
  cases comp with
  | nil => simpa using h1 rfl
  | cons a t => simpa using h2

/-- Emitting the pending component preserves "no segment starts with `#`". -/
theorem emit_acc_no_hash (comp : List Char) (acc : List (List Char))
    (hcomp : comp.head? ≠ some '#')
    (hacc : ∀ s ∈ acc, s.head? ≠ some '#') :
    ∀ s ∈ (if comp = [] then acc else acc ++ [comp]), s.head? ≠ some '#' := by
  intro s hs
  by_cases he : comp = []
  · rw [if_pos he] at hs
    exact hacc s hs
  · rw [if_neg he] at hs
    rcases List.mem_append.mp hs with h | h
    · exact hacc s h
    · rcases List.mem_singleton.mp h with rfl
      exact hcomp

/-- Invariant of the `prechop_line` scan: inside a string the pending
component is nonempty (it holds at least the opening quote), escape mode
occurs only inside a string, and neither the pending component nor any
emitted segment starts with `#`; hence no emitted segment ever starts
with `#`. -/
theorem prechop_aux_no_hash (cs : List Char) : ∀ (instr inesc : Bool)
    (comp : List Char) (acc : List (List Char)),
    (instr = true → comp ≠ []) →
    (inesc = true → instr = true) →
    comp.head? ≠ some '#' →
    (∀ s ∈ acc, s.head? ≠ some '#') →
    ∀ s ∈ prechop_aux cs instr inesc comp acc, s.head? ≠ some '#' := by
  induction cs with
  | nil =>
    intro instr inesc comp acc hins hesc hcomp hacc s hs
    unfold prechop_aux at hs
    exact emit_acc_no_hash comp acc hcomp hacc s hs
  | cons c rest ih =>
    intro instr inesc comp acc hins hesc hcomp hacc s hs
    unfold prechop_aux at hs
    by_cases h1 : c = '\n'
    · rw [if_pos h1] at hs
      exact emit_acc_no_hash comp acc hcomp hacc s hs
    rw [if_neg h1] at hs
    by_cases h2 : inesc = true
    · rw [if_pos h2] at hs
      exact ih instr false (comp ++ [c]) acc
        (fun _ => by simp) (fun hf => nomatch hf)
        (cons_append_head comp c (fun hc => absurd hc (hins (hesc h2))) hcomp)
        hacc s hs
    rw [if_neg h2] at hs
    by_cases h3 : instr = true ∧ c = '\\'
    · rw [if_pos h3] at hs
      exact ih instr true comp acc hins (fun _ => h3.1) hcomp hacc s hs
    rw [if_neg h3] at hs
    by_cases h4 : c = '#' ∧ instr = false
    · rw [if_pos h4] at hs
      exact emit_acc_no_hash comp acc hcomp hacc s hs
    rw [if_neg h4] at hs
    by_cases h5 : instr = false ∧ c = '"'
    · rw [if_pos h5] at hs
      exact ih true inesc (comp ++ [c]) acc
        (fun _ => by simp) (fun _ => rfl)
        (cons_append_head comp c (fun _ => by rw [h5.2]; decide) hcomp)
        hacc s hs
    rw [if_neg h5] at hs
    by_cases h6 : instr = true ∧ c = '"'
    · rw [if_pos h6] at hs
      exact ih false inesc (comp ++ [c]) acc
        (fun hf => nomatch hf) (fun hf => absurd hf h2)
        (cons_append_head comp c (fun hc => absurd hc (hins h6.1)) hcomp)
        hacc s hs
    rw [if_neg h6] at hs
    by_cases h7 : instr = false ∧ (c = ' ' ∨ c = '\t' ∨ c = ',')
    · rw [if_pos h7] at hs
      exact ih instr inesc [] (if comp = [] then acc else acc ++ [comp])
        (fun hf => absurd hf (by rw [h7.1]; exact Bool.false_ne_true))
        hesc (by simp) (emit_acc_no_hash comp acc hcomp hacc) s hs
    rw [if_neg h7] at hs
    exact ih instr inesc (comp ++ [c]) acc
      (fun _ => by simp) hesc
      (cons_append_head comp c
        (fun hc hcn => by
          cases hi : instr with
          | true => exact absurd hc (hins hi)
          | false => exact h4 ⟨hcn, hi⟩)
        hcomp)
      hacc s hs

/-- A segment that does not begin with `#` fails the `startsWithHash`
test. -/
theorem startsWithHash_eq_false (s : List Char) (h : s.head? ≠ some '#') :
    startsWithHash s = false := by
  cases s with
  | nil => rfl
  | cons a t =>
    simp only [startsWithHash]
    simp only [List.head?] at h
    simpa using h

/-- On segment lists whose members never start with `#`, the `chop_line`
loop and its variant without the defensive check agree. -/
theorem chop_aux_eq_nd (tbl : SymTab) (segs : List (List Char)) :
    (∀ s ∈ segs, s.head? ≠ some '#') →
    ∀ ws, chop_aux tbl segs ws = chop_aux_nd tbl segs ws := by
  induction segs with
  | nil => intro _ ws; rfl
  | cons s rest ih =>
    intro h ws
    unfold chop_aux chop_aux_nd
    by_cases he : s = []
    · rw [if_pos he, if_pos he]
      exact ih (fun x hx => h x (List.mem_cons_of_mem _ hx)) ws
    · rw [if_neg he, if_neg he]
      rw [startsWithHash_eq_false s (h s (List.mem_cons_self s rest))]
      rw [if_neg (show ¬(false = true) from by simp)]
      cases hc : chop_class tbl ws s with
      | error e => simp only [hc]
      | ok o =>
        cases o with
        | none =>
          simp only [hc]
          exact ih (fun x hx => h x (List.mem_cons_of_mem _ hx)) ws
        | some ws' =>
          simp only [hc]
          exact ih (fun x hx => h x (List.mem_cons_of_mem _ hx)) ws'

/-- Claim C10: for every input line, no segment emitted by `prechop_line`
begins with `#`; consequently the defensive second comment check in
`chop_line` never fires — the tokenizer is unchanged by its removal. -/
theorem C10_defensive_hash_check_unreachable (line : List Char) (tbl : SymTab) :
    (prechop_line line).all (fun s => !startsWithHash s) = true
    ∧ chop_line tbl line = chop_line_nodefense tbl line := by
  have hseg : ∀ s ∈ prechop_line line, s.head? ≠ some '#' :=
    prechop_aux_no_hash line false false [] []
      (fun hf => nomatch hf) (fun hf => nomatch hf) (by simp) (by simp)
  constructor
  · rw [List.all_eq_true]
    intro s hs
    rw [startsWithHash_eq_false s (hseg s hs)]
    rfl
  · exact chop_aux_eq_nd tbl (prechop_line line) hseg []
